import Mathlib

/-!
Shallow embedding of the CouncilForge turn-economy and social-dynamics core
(`src/world/engine.py`, `src/social/relationship_engine.py`,
`src/social/emotion_engine.py`, `src/social/interpersonal_goals.py`,
`src/social/decision_engine.py`, `src/agents/llm_agent.py`).

Conventions of the embedding:
- Python ints become `Int`; Python floats that only ever hold exactly
  representable small values (emotion scalars, bias weights, cost modifiers)
  become `ℚ`.
- A Python `dict` with string keys becomes a partial map `String → Option _`
  (unique keys, get/pop/set/containment — exactly dict semantics).
- Functions returning `(bool, str)` diagnostics keep only the components any
  verified property inspects; log strings that no property reads are dropped.
-/

namespace CF

/-- Action kinds, from `src/core/models.py` `ActionType` (all members, including
the legacy kinds the world engine rejects as unknown). -/
inductive ActionType where
  | increase_resource
  | decrease_resource
  | improve_resource
  | consume_resource
  | boost_morale
  | strengthen_infrastructure
  | support_agent
  | oppose_agent
  | negotiate
  | request_help
  | trade
  | sabotage
  | form_alliance
  | denounce_agent
  | offer_concession
  | demand_concession
  | accuse_agent
  | offer_protection
  | spread_rumor
  | propose_policy
  | send_message
  | improve_food
  | improve_energy
  | improve_infrastructure
  | generate_treasury
  | pass
  deriving DecidableEq, Repr

/-- A queued message, with the fields the engine writes in `apply_action`
(`Message(sender, recipient, content, turn_sent)`). -/
structure Message where
  sender : String
  recipient : String
  content : String
  turn_sent : Int
  deriving DecidableEq, Repr

/-- An action as validated by the world engine: its kind, its target
(`Option` because the engine explicitly guards against a `None` target) and the
optional message content.  The `resource`/`amount`/`reason` fields of the
Python model are never read by the engine and are omitted. -/
structure Action where
  type : ActionType
  target : Option String
  message : Option String
  deriving DecidableEq, Repr

/-- The world state operated on by `World` in `src/world/engine.py`: the five
integer resources, the turn counter, the derived `crisis_level`, the per-agent
one-shot `cost_modifiers` dict and the pending `message_queue`. -/
structure WorldState where
  treasury : Int
  food : Int
  energy : Int
  infrastructure : Int
  morale : Int
  turn : Int
  crisis_level : Int
  cost_modifiers : String → Option ℚ
  message_queue : List Message

/-- Truncation toward zero, the semantics of Python `int()` on a float/rational
(used for `int(base_output * modifier)`). -/
def int_trunc (q : ℚ) : Int := if 0 ≤ q then ⌊q⌋ else -⌊-q⌋

/-- World._calculate_derived_metrics: clamp the five resources at 0, then
`crisis_level = max(0, 100 - (sum of resources) // 5)` (Python `//` is floor
division, `Int.fdiv`). -/
def calculate_derived_metrics (s : WorldState) : WorldState :=
  let t := max 0 s.treasury
  let f := max 0 s.food
  let e := max 0 s.energy
  let i := max 0 s.infrastructure
  let m := max 0 s.morale
  let avg := Int.fdiv (t + f + e + i + m) 5
  { s with treasury := t, food := f, energy := e, infrastructure := i,
           morale := m, crisis_level := max 0 (100 - avg) }

/-- The cost table of `World._can_afford_action`: chargeable action kind to
(cost resource, base cost); actions outside the map are free. -/
def cost_map : ActionType → Option (String × Int)
  | .improve_food => some ("energy", 3)
  | .improve_energy => some ("treasury", 3)
  | .improve_infrastructure => some ("treasury", 4)
  | .boost_morale => some ("food", 2)
  | .generate_treasury => some ("energy", 4)
  | _ => none

/-- Dynamic resource access, the `getattr(self.state, cost_resource)` of the
source (only the five resource names ever occur). -/
def getResource (s : WorldState) (r : String) : Int :=
  if r = "treasury" then s.treasury
  else if r = "food" then s.food
  else if r = "energy" then s.energy
  else if r = "infrastructure" then s.infrastructure
  else if r = "morale" then s.morale
  else 0

/-- World._can_afford_action: looks up the fixed cost table; cost is the base
cost (Phase 1.8: output modifiers mean cost is fixed).  Returns
(can_afford, cost_resource, cost_amount); the human-readable error string is
dropped. -/
def can_afford_action (action : ActionType) (s : WorldState) : Bool × String × Int :=
  match cost_map action with
  | none => (true, "", 0)
  | some (cost_resource, base_cost) =>
      let actual_cost := base_cost
      let current_amount := getResource s cost_resource
      (decide (current_amount ≥ actual_cost), cost_resource, actual_cost)

/-- World._normalize_agent_name: first whitespace token, lowercased
(`name.split()[0].lower()`), computed over the character list so that it
evaluates by kernel reduction.  Agent names are ASCII, so per-character
`Char.toLower` matches Python `str.lower`.  (Python would raise on an
all-whitespace nonempty name; that input never occurs and is mapped to "".) -/
def normalize_agent_name (name : String) : String :=
  if name = "" then ""
  else
    let tokens := (name.toList.splitOnP Char.isWhitespace).filter (fun t => t ≠ [])
    String.mk ((tokens.headD []).map Char.toLower)

/-- The sentinel targets rejected up front by `is_valid_action`
(`[None, "", "null", "everyone", "anyone"]`). -/
def badTargets : List (Option String) :=
  [none, some "", some "null", some "everyone", some "anyone"]

/-- Step 1 and 2 of `World.is_valid_action`: target well-formedness and
category match (the cost check, step 3, is `can_afford_action`). -/
def target_ok (a : Action) (agent_name : String) (valid_agents : List String) : Bool :=
  if a.target ∈ badTargets then false
  else
    match a.type with
    | .improve_food | .improve_energy | .improve_infrastructure | .generate_treasury =>
        a.target = some "world"
    | .boost_morale =>
        a.target = some "world" ∨ a.target = some "population"
    | .support_agent | .oppose_agent =>
        let normalized_target := normalize_agent_name (a.target.getD "")
        let normalized_valid := valid_agents.map normalize_agent_name
        normalized_target ∈ normalized_valid ∧
          normalized_target ≠ normalize_agent_name agent_name
    | .send_message =>
        let normalized_target := normalize_agent_name (a.target.getD "")
        let normalized_valid := valid_agents.map normalize_agent_name
        normalized_target ∈ normalized_valid ∧
          normalized_target ≠ normalize_agent_name agent_name ∧
          ¬ (a.message = none ∨ a.message = some "")
    | .pass => true
    | _ => false

/-- World.is_valid_action: target/category validation, then the cost check.
Only the boolean verdict is kept; the per-branch error strings are logging. -/
def is_valid_action (s : WorldState) (a : Action) (agent_name : String)
    (valid_agents : List String) : Bool :=
  target_ok a agent_name valid_agents && (can_afford_action a.type s).1

/-- The `dict.pop(key, 1.0)` on `cost_modifiers`: returns the stored modifier
(defaulting to 1) and the map with the key removed. -/
def popModifier (m : String → Option ℚ) (k : String) : ℚ × (String → Option ℚ) :=
  ((m k).getD 1, fun k2 => if k2 = k then none else m k2)

/-- The `dict.__setitem__` on `cost_modifiers`. -/
def setModifier (m : String → Option ℚ) (k : String) (v : ℚ) : String → Option ℚ :=
  fun k2 => if k2 = k then some v else m k2

/-- World.apply_action: validate, then mutate.  Returns (success, new state);
the `TurnEvent` wrapper around the outcome string carries no state and is
dropped.  Each chargeable branch re-checks affordability exactly as the source
does, deducts the fixed cost, pops the agent's one-shot modifier and adds
`int(base_output * modifier)` of the yield resource; every non-early-return
path ends in `calculate_derived_metrics`. -/
def apply_action (s : WorldState) (agent_name : String) (a : Action)
    (valid_agents : List String) : Bool × WorldState :=
  if ¬ is_valid_action s a agent_name valid_agents then (false, s)
  else
    match a.type with
    | .improve_food =>
        let (ok, _, actual_cost) := can_afford_action .improve_food s
        if ¬ ok then (false, s)
        else
          let s := { s with energy := s.energy - actual_cost }
          let (modifier, cm) := popModifier s.cost_modifiers agent_name
          let base_output : Int := 8
          let actual_output := int_trunc ((base_output : ℚ) * modifier)
          let s := { s with cost_modifiers := cm, food := s.food + actual_output }
          (true, calculate_derived_metrics s)
    | .improve_energy =>
        let (ok, _, actual_cost) := can_afford_action .improve_energy s
        if ¬ ok then (false, s)
        else
          let s := { s with treasury := s.treasury - actual_cost }
          let (modifier, cm) := popModifier s.cost_modifiers agent_name
          let base_output : Int := 8
          let actual_output := int_trunc ((base_output : ℚ) * modifier)
          let s := { s with cost_modifiers := cm, energy := s.energy + actual_output }
          (true, calculate_derived_metrics s)
    | .improve_infrastructure =>
        let (ok, _, actual_cost) := can_afford_action .improve_infrastructure s
        if ¬ ok then (false, s)
        else
          let s := { s with treasury := s.treasury - actual_cost }
          let (modifier, cm) := popModifier s.cost_modifiers agent_name
          let base_output : Int := 8
          let actual_output := int_trunc ((base_output : ℚ) * modifier)
          let s := { s with cost_modifiers := cm,
                            infrastructure := s.infrastructure + actual_output }
          (true, calculate_derived_metrics s)
    | .boost_morale =>
        let (ok, _, actual_cost) := can_afford_action .boost_morale s
        if ¬ ok then (false, s)
        else
          let s := { s with food := s.food - actual_cost }
          let (modifier, cm) := popModifier s.cost_modifiers agent_name
          let base_output : Int := 8
          let actual_output := int_trunc ((base_output : ℚ) * modifier)
          let s := { s with cost_modifiers := cm, morale := s.morale + actual_output }
          (true, calculate_derived_metrics s)
    | .generate_treasury =>
        let (ok, _, actual_cost) := can_afford_action .generate_treasury s
        if ¬ ok then (false, s)
        else
          let s := { s with energy := s.energy - actual_cost }
          let (modifier, cm) := popModifier s.cost_modifiers agent_name
          let base_output : Int := 3
          let actual_output := int_trunc ((base_output : ℚ) * modifier)
          let s := { s with cost_modifiers := cm, treasury := s.treasury + actual_output }
          (true, calculate_derived_metrics s)
    | .support_agent =>
        let normalized_target := normalize_agent_name (a.target.getD "")
        let target_agent :=
          valid_agents.find? (fun x => normalize_agent_name x = normalized_target)
        let s :=
          match target_agent with
          | some t => { s with cost_modifiers := setModifier s.cost_modifiers t (3/2),
                               morale := s.morale + 5 }
          | none => s
        (true, calculate_derived_metrics s)
    | .oppose_agent =>
        let normalized_target := normalize_agent_name (a.target.getD "")
        let target_agent :=
          valid_agents.find? (fun x => normalize_agent_name x = normalized_target)
        let s :=
          match target_agent with
          | some t => { s with cost_modifiers := setModifier s.cost_modifiers t (1/2),
                               morale := s.morale - 3 }
          | none => s
        (true, calculate_derived_metrics s)
    | .send_message =>
        match a.message, a.target with
        | some msg, some tgt =>
            if msg = "" then (false, calculate_derived_metrics s)
            else
              let m : Message := { sender := agent_name, recipient := tgt,
                                   content := msg, turn_sent := s.turn }
              (true, calculate_derived_metrics { s with message_queue := s.message_queue ++ [m] })
        | _, _ => (false, calculate_derived_metrics s)
    | .pass => (true, calculate_derived_metrics s)
    | _ => (false, calculate_derived_metrics s)

/-- World.check_terminal_state: the four terminal conditions, evaluated in
source order, with the reason string of the first that holds. -/
def check_terminal_state (s : WorldState) : Bool × String :=
  if s.food ≤ 0 then
    (true, "GAME OVER: Food supply exhausted - population starved")
  else if s.energy ≤ 0 then
    (true, "GAME OVER: Energy depleted - system collapse")
  else if s.treasury ≤ 0 ∧ s.infrastructure < 20 then
    (true, "GAME OVER: Economic collapse - no treasury and failing infrastructure")
  else if s.morale ≤ 5 then
    (true, "GAME OVER: Morale critical - society has collapsed")
  else (false, "")

/-- World.increment_turn: advance the turn counter, decay treasury, food,
energy and infrastructure by 2 (floored at 0, morale exempt), then recompute
derived metrics. -/
def increment_turn (s : WorldState) : WorldState :=
  let decay_amount : Int := 2
  calculate_derived_metrics
    { s with turn := s.turn + 1,
             treasury := max 0 (s.treasury - decay_amount),
             food := max 0 (s.food - decay_amount),
             energy := max 0 (s.energy - decay_amount),
             infrastructure := max 0 (s.infrastructure - decay_amount) }

/-- A convenient fully-concrete starting state (the configured initial values
used throughout the repository's tests: all five resources 50, turn 0). -/
def initialState : WorldState :=
  calculate_derived_metrics
    { treasury := 50, food := 50, energy := 50, infrastructure := 50, morale := 50,
      turn := 0, crisis_level := 0, cost_modifiers := fun _ => none, message_queue := [] }

/-- The crisis-level equation the spec states for derived metrics:
`crisis_level = max(0, 100 - floor((treasury+food+energy+infrastructure+morale)/5))`. -/
def crisis_invariant (s : WorldState) : Prop :=
  s.crisis_level =
    max 0 (100 - Int.fdiv (s.treasury + s.food + s.energy + s.infrastructure + s.morale) 5)

theorem crisis_invariant_recalc (s : WorldState) :
    crisis_invariant (calculate_derived_metrics s) := by
  rfl

theorem apply_action_cases (s : WorldState) (n : String) (a : Action) (ag : List String) :
    apply_action s n a ag = (false, s) ∨
      ∃ b u, apply_action s n a ag = (b, calculate_derived_metrics u) := by
  rcases a with ⟨ty, tgt, msg⟩
  unfold apply_action
  split
  · exact Or.inl rfl
  · cases ty <;> dsimp only [can_afford_action, cost_map] <;> (try split) <;>
      (try split) <;>
      first
        | exact Or.inl rfl
        | exact Or.inr ⟨_, _, rfl⟩

/-- C1: for every action, agent name and valid-agent list, if `apply_action`
rejects the action — which happens exactly when `is_valid_action` fails
(invalid target, wrong category, self-targeting, missing message content) or
the affordability check fails — it reports failure and returns the WorldState
completely unchanged. -/
theorem c1_rejection_is_total_noop (s : WorldState) (agent_name : String) (a : Action)
    (valid_agents : List String) :
    (is_valid_action s a agent_name valid_agents = false →
      apply_action s agent_name a valid_agents = (false, s)) ∧
    ((can_afford_action a.type s).1 = false →
      apply_action s agent_name a valid_agents = (false, s)) := by
  constructor
  · intro h
    unfold apply_action
    simp [h]
  · intro h
    have hv : is_valid_action s a agent_name valid_agents = false := by
      unfold is_valid_action
      simp [h]
    unfold apply_action
    simp [hv]

/-- Witness for C1: a `pass` action with the sentinel target "null" is rejected
by validation and leaves the concrete initial state untouched; an
`improve_infrastructure` action from a treasury of 3 (cost 4) is rejected by
affordability and likewise changes nothing. -/
theorem c1_rejection_is_total_noop_witness :
    apply_action initialState "Alice" ⟨.pass, some "null", none⟩ ["Alice", "Bob"] =
      (false, initialState) ∧
    apply_action { initialState with treasury := 3 } "Alice"
        ⟨.improve_infrastructure, some "world", none⟩ ["Alice", "Bob"] =
      (false, { initialState with treasury := 3 }) :=
  ⟨(c1_rejection_is_total_noop initialState "Alice" ⟨.pass, some "null", none⟩
      ["Alice", "Bob"]).1 (by decide),
   (c1_rejection_is_total_noop { initialState with treasury := 3 } "Alice"
      ⟨.improve_infrastructure, some "world", none⟩ ["Alice", "Bob"]).2 (by decide)⟩

/-- C3: `check_terminal_state` is terminal iff food ≤ 0, or energy ≤ 0, or
(treasury ≤ 0 and infrastructure < 20), or morale ≤ 5; simultaneous conditions
report the first matched in that order; and from
food=0, energy=50, treasury=50, infrastructure=50, morale=50 it reports
starvation and nothing else. -/
theorem c3_terminal_conditions_and_order (s : WorldState) :
    ((check_terminal_state s).1 = true ↔
      (s.food ≤ 0 ∨ s.energy ≤ 0 ∨ (s.treasury ≤ 0 ∧ s.infrastructure < 20) ∨
        s.morale ≤ 5)) ∧
    (s.food ≤ 0 →
      check_terminal_state s =
        (true, "GAME OVER: Food supply exhausted - population starved")) ∧
    (¬ s.food ≤ 0 → s.energy ≤ 0 →
      check_terminal_state s = (true, "GAME OVER: Energy depleted - system collapse")) ∧
    (¬ s.food ≤ 0 → ¬ s.energy ≤ 0 → s.treasury ≤ 0 ∧ s.infrastructure < 20 →
      check_terminal_state s =
        (true, "GAME OVER: Economic collapse - no treasury and failing infrastructure")) ∧
    (¬ s.food ≤ 0 → ¬ s.energy ≤ 0 → ¬ (s.treasury ≤ 0 ∧ s.infrastructure < 20) →
      s.morale ≤ 5 →
      check_terminal_state s = (true, "GAME OVER: Morale critical - society has collapsed")) ∧
    check_terminal_state
        { s with food := 0, energy := 50, treasury := 50, infrastructure := 50,
                 morale := 50 } =
      (true, "GAME OVER: Food supply exhausted - population starved") := by
  unfold check_terminal_state
  refine ⟨?_, ?_, ?_, ?_, ?_, ?_⟩
  · split_ifs <;> simp_all
  · intro h; simp [h]
  · intro h1 h2; simp [h1, h2]
  · intro h1 h2 h3; simp [h1, h2, h3]
  · intro h1 h2 h3 h4; simp [h1, h2, h3, h4]
  · norm_num

/-- Witness for C3: the iff and each ordered branch instantiated at concrete
states (food-terminal, energy-terminal, economic-terminal, morale-terminal). -/
theorem c3_terminal_conditions_and_order_witness :
    ((check_terminal_state { initialState with food := 0 }).1 = true ↔
      ((0 : Int) ≤ 0 ∨ (50 : Int) ≤ 0 ∨ ((50 : Int) ≤ 0 ∧ (50 : Int) < 20) ∨
        (50 : Int) ≤ 5)) ∧
    check_terminal_state { initialState with energy := 0 } =
      (true, "GAME OVER: Energy depleted - system collapse") ∧
    check_terminal_state { initialState with treasury := 0, infrastructure := 10 } =
      (true, "GAME OVER: Economic collapse - no treasury and failing infrastructure") ∧
    check_terminal_state { initialState with morale := 2 } =
      (true, "GAME OVER: Morale critical - society has collapsed") :=
  ⟨(c3_terminal_conditions_and_order { initialState with food := 0 }).1,
   (c3_terminal_conditions_and_order { initialState with energy := 0 }).2.2.1
      (by decide) (by decide),
   (c3_terminal_conditions_and_order
        { initialState with treasury := 0, infrastructure := 10 }).2.2.2.1
      (by decide) (by decide) (by decide),
   (c3_terminal_conditions_and_order { initialState with morale := 2 }).2.2.2.2.1
      (by decide) (by decide) (by decide) (by decide)⟩

/-- C5: `increment_turn` adds exactly 1 to the turn counter, decays treasury,
food, energy and infrastructure by 2 clamped at 0, leaves morale unchanged
(for the nonnegative morale the clamp invariant guarantees), and afterwards
the crisis-level equation holds; the same equation holds after every
successful `apply_action`. -/
theorem c5_turn_decay_and_crisis_equation (s : WorldState) (hm : 0 ≤ s.morale) :
    (increment_turn s).turn = s.turn + 1 ∧
    (increment_turn s).treasury = max 0 (s.treasury - 2) ∧
    (increment_turn s).food = max 0 (s.food - 2) ∧
    (increment_turn s).energy = max 0 (s.energy - 2) ∧
    (increment_turn s).infrastructure = max 0 (s.infrastructure - 2) ∧
    (increment_turn s).morale = s.morale ∧
    crisis_invariant (increment_turn s) ∧
    (∀ (n : String) (a : Action) (ag : List String),
      (apply_action s n a ag).1 = true → crisis_invariant (apply_action s n a ag).2) := by
  refine ⟨rfl, ?_, ?_, ?_, ?_, ?_, ?_, ?_⟩
  · show max 0 (max 0 (s.treasury - 2)) = max 0 (s.treasury - 2)
    rw [← max_assoc, max_self]
  · show max 0 (max 0 (s.food - 2)) = max 0 (s.food - 2)
    rw [← max_assoc, max_self]
  · show max 0 (max 0 (s.energy - 2)) = max 0 (s.energy - 2)
    rw [← max_assoc, max_self]
  · show max 0 (max 0 (s.infrastructure - 2)) = max 0 (s.infrastructure - 2)
    rw [← max_assoc, max_self]
  · show max 0 s.morale = s.morale
    exact max_eq_right hm
  · exact crisis_invariant_recalc _
  · intro n a ag h
    rcases apply_action_cases s n a ag with hc | ⟨b, u, hc⟩
    · rw [hc] at h
      simp at h
    · rw [hc]
      exact crisis_invariant_recalc u

/-- Witness for C5: the decay and crisis equation at the concrete initial
state, and the crisis equation after a successful concrete `pass`. -/
theorem c5_turn_decay_and_crisis_equation_witness :
    (increment_turn initialState).turn = initialState.turn + 1 ∧
    (increment_turn initialState).morale = initialState.morale ∧
    crisis_invariant (increment_turn initialState) ∧
    crisis_invariant (apply_action initialState "Alice" ⟨.pass, some "world", none⟩
        ["Alice"]).2 := by
  obtain ⟨h1, _, _, _, _, h6, h7, h8⟩ :=
    c5_turn_decay_and_crisis_equation initialState (by decide)
  exact ⟨h1, h6, h7, h8 "Alice" ⟨.pass, some "world", none⟩ ["Alice"] (by decide)⟩

/-- C7 counterexample: `boost_morale` targeting the string "population" (not
"world") is accepted by validation and applied successfully from the initial
state, so it is false that every resource action is rejected whenever its
target is any string other than "world". -/
theorem c7_counterexample_population_target :
    is_valid_action initialState ⟨.boost_morale, some "population", none⟩ "Alice"
        ["Alice", "Bob"] = true ∧
    (apply_action initialState "Alice" ⟨.boost_morale, some "population", none⟩
        ["Alice", "Bob"]).1 = true := by
  constructor
  · decide
  · decide

/-- C7 (amended): the four resource actions improve_food, improve_energy,
improve_infrastructure and generate_treasury are rejected whenever the target
is anything other than "world"; boost_morale is rejected whenever the target
is neither "world" nor "population". -/
theorem c7_resource_actions_must_target_world (s : WorldState) (agent_name : String)
    (valid_agents : List String) :
    (∀ a : Action,
      a.type ∈ ([.improve_food, .improve_energy, .improve_infrastructure,
        .generate_treasury] : List ActionType) →
      a.target ≠ some "world" →
      is_valid_action s a agent_name valid_agents = false ∧
        apply_action s agent_name a valid_agents = (false, s)) ∧
    (∀ a : Action,
      a.type = .boost_morale →
      a.target ≠ some "world" → a.target ≠ some "population" →
      is_valid_action s a agent_name valid_agents = false ∧
        apply_action s agent_name a valid_agents = (false, s)) := by
  have reject : ∀ a : Action, target_ok a agent_name valid_agents = false →
      is_valid_action s a agent_name valid_agents = false ∧
        apply_action s agent_name a valid_agents = (false, s) := by
    intro a h
    have hv : is_valid_action s a agent_name valid_agents = false := by
      unfold is_valid_action
      simp [h]
    refine ⟨hv, ?_⟩
    unfold apply_action
    simp [hv]
  constructor
  · intro a hmem htgt
    refine reject a ?_
    unfold target_ok
    rcases a with ⟨ty, tgt, msg⟩
    fin_cases hmem <;> split <;> simp_all
  · intro a hty htgt hpop
    refine reject a ?_
    unfold target_ok
    rcases a with ⟨ty, tgt, msg⟩
    dsimp only at hty
    subst hty
    split <;> simp_all
/-- Witness for C7 (amended): improve_food targeting "population" and
boost_morale targeting "Bob" are both rejected from the initial state with no
state change. -/
theorem c7_resource_actions_must_target_world_witness :
    (is_valid_action initialState ⟨.improve_food, some "population", none⟩ "Alice"
        ["Alice", "Bob"] = false ∧
      apply_action initialState "Alice" ⟨.improve_food, some "population", none⟩
        ["Alice", "Bob"] = (false, initialState)) ∧
    (is_valid_action initialState ⟨.boost_morale, some "Bob", none⟩ "Alice"
        ["Alice", "Bob"] = false ∧
      apply_action initialState "Alice" ⟨.boost_morale, some "Bob", none⟩
        ["Alice", "Bob"] = (false, initialState)) :=
  ⟨(c7_resource_actions_must_target_world initialState "Alice" ["Alice", "Bob"]).1
      ⟨.improve_food, some "population", none⟩ (by decide) (by decide),
   (c7_resource_actions_must_target_world initialState "Alice" ["Alice", "Bob"]).2
      ⟨.boost_morale, some "Bob", none⟩ rfl (by decide) (by decide)⟩

/-- C8 counterexample: a `pass` action whose target is the sentinel string
"null" is rejected by the target well-formedness check, so it is false that
`apply_action` accepts every pass action regardless of target. -/
theorem c8_counterexample_pass_sentinel_target :
    (apply_action initialState "Bob" ⟨.pass, some "everyone", none⟩ ["Alice", "Bob"]).1 =
      false := by
  decide

/-- C8 (amended): for every target outside the sentinel list
{None, "", "null", "everyone", "anyone"}, a pass action is accepted and the
resulting state is exactly the input state with derived metrics recomputed
(clamping and crisis level), nothing else. -/
theorem c8_pass_is_noop_for_wellformed_target (s : WorldState) (agent_name : String)
    (valid_agents : List String) (t : Option String) (m : Option String)
    (h : t ∉ badTargets) :
    apply_action s agent_name ⟨.pass, t, m⟩ valid_agents =
      (true, calculate_derived_metrics s) := by
  have hv : is_valid_action s ⟨.pass, t, m⟩ agent_name valid_agents = true := by
    unfold is_valid_action target_ok can_afford_action cost_map
    simp [h]
  unfold apply_action
  simp [hv]

/-- Witness for C8 (amended): a pass targeting "world" from the initial state
succeeds and only recomputes the derived metrics. -/
theorem c8_pass_is_noop_for_wellformed_target_witness :
    apply_action initialState "Alice" ⟨.pass, some "world", none⟩ ["Alice"] =
      (true, calculate_derived_metrics initialState) :=
  c8_pass_is_noop_for_wellformed_target initialState "Alice" ["Alice"] (some "world")
    none (by decide)

/-- The five chargeable resource actions (the domain of `cost_map`). -/
def chargeable_actions : List ActionType :=
  [.improve_food, .improve_energy, .improve_infrastructure, .boost_morale,
   .generate_treasury]

/-- The resource each chargeable action yields (the field each `apply_action`
branch adds its output to). -/
def yield_resource : ActionType → String
  | .improve_food => "food"
  | .improve_energy => "energy"
  | .improve_infrastructure => "infrastructure"
  | .boost_morale => "morale"
  | .generate_treasury => "treasury"
  | _ => ""

/-- The `base_output` constant of each chargeable `apply_action` branch. -/
def base_output_of : ActionType → Int
  | .generate_treasury => 3
  | _ => 8

theorem int_trunc_nonneg {q : ℚ} (h : 0 ≤ q) : 0 ≤ int_trunc q := by
  unfold int_trunc
  rw [if_pos h]
  exact Int.floor_nonneg.mpr h

theorem valid_chargeable_world (s : WorldState) (B : String) (agents : List String)
    (act : ActionType) (hmem : act ∈ chargeable_actions)
    (hafford : (can_afford_action act s).1 = true) :
    is_valid_action s ⟨act, some "world", none⟩ B agents = true := by
  unfold is_valid_action target_ok
  fin_cases hmem <;> simp [badTargets, hafford]

theorem apply_improve_food_eq (s : WorldState) (B : String) (agents : List String)
    (hafford : (can_afford_action .improve_food s).1 = true) :
    apply_action s B ⟨.improve_food, some "world", none⟩ agents =
      (true, calculate_derived_metrics
        { s with energy := s.energy - 3,
                 cost_modifiers := fun k2 => if k2 = B then none else s.cost_modifiers k2,
                 food := s.food + int_trunc ((8 : ℚ) * ((s.cost_modifiers B).getD 1)) }) := by
  have hv := valid_chargeable_world s B agents .improve_food (by decide) hafford
  have hd : decide (getResource s "energy" ≥ 3) = true := hafford
  unfold apply_action
  simp [hv, can_afford_action, cost_map, hd, popModifier]

theorem apply_improve_energy_eq (s : WorldState) (B : String) (agents : List String)
    (hafford : (can_afford_action .improve_energy s).1 = true) :
    apply_action s B ⟨.improve_energy, some "world", none⟩ agents =
      (true, calculate_derived_metrics
        { s with treasury := s.treasury - 3,
                 cost_modifiers := fun k2 => if k2 = B then none else s.cost_modifiers k2,
                 energy := s.energy + int_trunc ((8 : ℚ) * ((s.cost_modifiers B).getD 1)) }) := by
  have hv := valid_chargeable_world s B agents .improve_energy (by decide) hafford
  have hd : decide (getResource s "treasury" ≥ 3) = true := hafford
  unfold apply_action
  simp [hv, can_afford_action, cost_map, hd, popModifier]

theorem apply_improve_infrastructure_eq (s : WorldState) (B : String)
    (agents : List String)
    (hafford : (can_afford_action .improve_infrastructure s).1 = true) :
    apply_action s B ⟨.improve_infrastructure, some "world", none⟩ agents =
      (true, calculate_derived_metrics
        { s with treasury := s.treasury - 4,
                 cost_modifiers := fun k2 => if k2 = B then none else s.cost_modifiers k2,
                 infrastructure :=
                   s.infrastructure + int_trunc ((8 : ℚ) * ((s.cost_modifiers B).getD 1)) }) := by
  have hv := valid_chargeable_world s B agents .improve_infrastructure (by decide) hafford
  have hd : decide (getResource s "treasury" ≥ 4) = true := hafford
  unfold apply_action
  simp [hv, can_afford_action, cost_map, hd, popModifier]

theorem apply_boost_morale_eq (s : WorldState) (B : String) (agents : List String)
    (hafford : (can_afford_action .boost_morale s).1 = true) :
    apply_action s B ⟨.boost_morale, some "world", none⟩ agents =
      (true, calculate_derived_metrics
        { s with food := s.food - 2,
                 cost_modifiers := fun k2 => if k2 = B then none else s.cost_modifiers k2,
                 morale := s.morale + int_trunc ((8 : ℚ) * ((s.cost_modifiers B).getD 1)) }) := by
  have hv := valid_chargeable_world s B agents .boost_morale (by decide) hafford
  have hd : decide (getResource s "food" ≥ 2) = true := hafford
  unfold apply_action
  simp [hv, can_afford_action, cost_map, hd, popModifier]

theorem apply_generate_treasury_eq (s : WorldState) (B : String) (agents : List String)
    (hafford : (can_afford_action .generate_treasury s).1 = true) :
    apply_action s B ⟨.generate_treasury, some "world", none⟩ agents =
      (true, calculate_derived_metrics
        { s with energy := s.energy - 4,
                 cost_modifiers := fun k2 => if k2 = B then none else s.cost_modifiers k2,
                 treasury := s.treasury + int_trunc ((3 : ℚ) * ((s.cost_modifiers B).getD 1)) }) := by
  have hv := valid_chargeable_world s B agents .generate_treasury (by decide) hafford
  have hd : decide (getResource s "energy" ≥ 4) = true := hafford
  unfold apply_action
  simp [hv, can_afford_action, cost_map, hd, popModifier]

theorem int_trunc_intCast (n : Int) : int_trunc (n : ℚ) = n := by
  unfold int_trunc
  split
  · exact Int.floor_intCast n
  · rw [← Int.cast_neg, Int.floor_intCast]
    omega

theorem charge_action_spec (s : WorldState) (B : String) (agents : List String)
    (act : ActionType) (cr : String) (c : Int) (mo : ℚ)
    (hmem : act ∈ chargeable_actions)
    (hc : cost_map act = some (cr, c))
    (hmo : (s.cost_modifiers B).getD 1 = mo)
    (hmo0 : 0 ≤ mo)
    (ht : 0 ≤ s.treasury) (hf : 0 ≤ s.food) (he : 0 ≤ s.energy)
    (hi : 0 ≤ s.infrastructure) (hm : 0 ≤ s.morale)
    (hafford : (can_afford_action act s).1 = true) :
    (apply_action s B ⟨act, some "world", none⟩ agents).1 = true ∧
    (apply_action s B ⟨act, some "world", none⟩ agents).2.cost_modifiers B = none ∧
    getResource (apply_action s B ⟨act, some "world", none⟩ agents).2 cr =
      getResource s cr - c ∧
    getResource (apply_action s B ⟨act, some "world", none⟩ agents).2 (yield_resource act) =
      getResource s (yield_resource act) + int_trunc ((base_output_of act : ℚ) * mo) := by
  have hb8 : (0:ℚ) ≤ 8 * mo := by positivity
  have hb3 : (0:ℚ) ≤ 3 * mo := by positivity
  fin_cases hmem
  · simp only [cost_map, Option.some.injEq, Prod.mk.injEq] at hc
    obtain ⟨rfl, rfl⟩ := hc
    have hd : decide (getResource s "energy" ≥ 3) = true := hafford
    have hd' : (3:Int) ≤ s.energy := by simpa [getResource] using of_decide_eq_true hd
    have hout : 0 ≤ int_trunc ((8:ℚ) * mo) := int_trunc_nonneg hb8
    rw [apply_improve_food_eq s B agents hafford, hmo]
    refine ⟨rfl, by simp [calculate_derived_metrics], ?_, ?_⟩
    · simp only [calculate_derived_metrics, getResource]
      simp
      omega
    · simp only [calculate_derived_metrics, getResource, yield_resource, base_output_of]
      simp
      omega
  · simp only [cost_map, Option.some.injEq, Prod.mk.injEq] at hc
    obtain ⟨rfl, rfl⟩ := hc
    have hd : decide (getResource s "treasury" ≥ 3) = true := hafford
    have hd' : (3:Int) ≤ s.treasury := by simpa [getResource] using of_decide_eq_true hd
    have hout : 0 ≤ int_trunc ((8:ℚ) * mo) := int_trunc_nonneg hb8
    rw [apply_improve_energy_eq s B agents hafford, hmo]
    refine ⟨rfl, by simp [calculate_derived_metrics], ?_, ?_⟩
    · simp only [calculate_derived_metrics, getResource]
      simp
      omega
    · simp only [calculate_derived_metrics, getResource, yield_resource, base_output_of]
      simp
      omega
  · simp only [cost_map, Option.some.injEq, Prod.mk.injEq] at hc
    obtain ⟨rfl, rfl⟩ := hc
    have hd : decide (getResource s "treasury" ≥ 4) = true := hafford
    have hd' : (4:Int) ≤ s.treasury := by simpa [getResource] using of_decide_eq_true hd
    have hout : 0 ≤ int_trunc ((8:ℚ) * mo) := int_trunc_nonneg hb8
    rw [apply_improve_infrastructure_eq s B agents hafford, hmo]
    refine ⟨rfl, by simp [calculate_derived_metrics], ?_, ?_⟩
    · simp only [calculate_derived_metrics, getResource]
      simp
      omega
    · simp only [calculate_derived_metrics, getResource, yield_resource, base_output_of]
      simp
      omega
  · simp only [cost_map, Option.some.injEq, Prod.mk.injEq] at hc
    obtain ⟨rfl, rfl⟩ := hc
    have hd : decide (getResource s "food" ≥ 2) = true := hafford
    have hd' : (2:Int) ≤ s.food := by simpa [getResource] using of_decide_eq_true hd
    have hout : 0 ≤ int_trunc ((8:ℚ) * mo) := int_trunc_nonneg hb8
    rw [apply_boost_morale_eq s B agents hafford, hmo]
    refine ⟨rfl, by simp [calculate_derived_metrics], ?_, ?_⟩
    · simp only [calculate_derived_metrics, getResource]
      simp
      omega
    · simp only [calculate_derived_metrics, getResource, yield_resource, base_output_of]
      simp
      omega
  · simp only [cost_map, Option.some.injEq, Prod.mk.injEq] at hc
    obtain ⟨rfl, rfl⟩ := hc
    have hd : decide (getResource s "energy" ≥ 4) = true := hafford
    have hd' : (4:Int) ≤ s.energy := by simpa [getResource] using of_decide_eq_true hd
    have hout : 0 ≤ int_trunc ((3:ℚ) * mo) := int_trunc_nonneg hb3
    rw [apply_generate_treasury_eq s B agents hafford, hmo]
    refine ⟨rfl, by simp [calculate_derived_metrics], ?_, ?_⟩
    · simp only [calculate_derived_metrics, getResource]
      simp
      omega
    · simp only [calculate_derived_metrics, getResource, yield_resource, base_output_of]
      simp
      omega

/-- C2: a successful support_agent by A that resolves to B writes modifier 1.5
for B into cost_modifiers; B's next successful chargeable resource action —
whichever of the five it is — removes B's entry, charges the unmodified base
cost, and adds `int(base_output * 1.5)` (truncation = floor here) of the yield
resource; with no stored modifier (the state after that first action) a
chargeable action uses modifier 1.0 and adds exactly `base_output`. -/
theorem c2_support_modifier_is_one_shot_output_boost :
    (∀ (s : WorldState) (A B : String) (agents : List String),
      agents.find? (fun x => normalize_agent_name x = normalize_agent_name B) = some B →
      is_valid_action s ⟨.support_agent, some B, none⟩ A agents = true →
      (apply_action s A ⟨.support_agent, some B, none⟩ agents).1 = true ∧
      (apply_action s A ⟨.support_agent, some B, none⟩ agents).2.cost_modifiers B =
        some (3/2)) ∧
    (∀ (s : WorldState) (B : String) (agents : List String) (act : ActionType)
      (cr : String) (c : Int),
      act ∈ chargeable_actions →
      cost_map act = some (cr, c) →
      s.cost_modifiers B = some (3/2) →
      0 ≤ s.treasury → 0 ≤ s.food → 0 ≤ s.energy → 0 ≤ s.infrastructure →
      0 ≤ s.morale →
      (can_afford_action act s).1 = true →
      (apply_action s B ⟨act, some "world", none⟩ agents).1 = true ∧
      (apply_action s B ⟨act, some "world", none⟩ agents).2.cost_modifiers B = none ∧
      getResource (apply_action s B ⟨act, some "world", none⟩ agents).2 cr =
        getResource s cr - c ∧
      getResource (apply_action s B ⟨act, some "world", none⟩ agents).2
          (yield_resource act) =
        getResource s (yield_resource act) +
          int_trunc ((base_output_of act : ℚ) * (3/2))) ∧
    (∀ (s : WorldState) (B : String) (agents : List String) (act : ActionType)
      (cr : String) (c : Int),
      act ∈ chargeable_actions →
      cost_map act = some (cr, c) →
      s.cost_modifiers B = none →
      0 ≤ s.treasury → 0 ≤ s.food → 0 ≤ s.energy → 0 ≤ s.infrastructure →
      0 ≤ s.morale →
      (can_afford_action act s).1 = true →
      (apply_action s B ⟨act, some "world", none⟩ agents).1 = true ∧
      getResource (apply_action s B ⟨act, some "world", none⟩ agents).2 cr =
        getResource s cr - c ∧
      getResource (apply_action s B ⟨act, some "world", none⟩ agents).2
          (yield_resource act) =
        getResource s (yield_resource act) + base_output_of act) := by
  refine ⟨?_, ?_, ?_⟩
  · intro s A B agents hfind hv
    unfold apply_action
    simp only [hv, Bool.not_eq_true, Bool.true_eq_false, if_false, ite_false]
    simp only [Option.getD_some, hfind]
    refine ⟨by simp [hv], ?_⟩
    simp [calculate_derived_metrics, setModifier]
  · intro s B agents act cr c hmem hc hmod ht hf he hi hm hafford
    have hmo : (s.cost_modifiers B).getD 1 = (3/2 : ℚ) := by rw [hmod]; rfl
    exact charge_action_spec s B agents act cr c (3/2) hmem hc hmo (by norm_num)
      ht hf he hi hm hafford
  · intro s B agents act cr c hmem hc hmod ht hf he hi hm hafford
    have hmo : (s.cost_modifiers B).getD 1 = (1 : ℚ) := by rw [hmod]; rfl
    obtain ⟨h1, _, h3, h4⟩ := charge_action_spec s B agents act cr c 1 hmem hc hmo
      (by norm_num) ht hf he hi hm hafford
    refine ⟨h1, h3, ?_⟩
    rw [h4, mul_one, int_trunc_intCast]

/-- Witness for C2: Alice supports Bob from the initial state, setting modifier
1.5 for Bob; from a state holding that modifier, Bob's improve_infrastructure
succeeds, clears the modifier, charges base cost 4 treasury and yields
`int(8 * 1.5) = 12`; from the modifier-free initial state, Bob's improve_food
charges 3 energy and yields the base output 8. -/
theorem c2_support_modifier_is_one_shot_output_boost_witness :
    ((apply_action initialState "Alice" ⟨.support_agent, some "Bob", none⟩
        ["Alice", "Bob"]).2.cost_modifiers "Bob" = some (3/2)) ∧
    ((apply_action
        { initialState with cost_modifiers := fun k => if k = "Bob" then some (3/2) else none }
        "Bob" ⟨.improve_infrastructure, some "world", none⟩ ["Alice", "Bob"]).2.cost_modifiers
        "Bob" = none) ∧
    (getResource (apply_action
        { initialState with cost_modifiers := fun k => if k = "Bob" then some (3/2) else none }
        "Bob" ⟨.improve_infrastructure, some "world", none⟩ ["Alice", "Bob"]).2
        (yield_resource .improve_infrastructure) =
      getResource
        { initialState with cost_modifiers := fun k => if k = "Bob" then some (3/2) else none }
        (yield_resource .improve_infrastructure) +
        int_trunc ((base_output_of .improve_infrastructure : ℚ) * (3/2))) ∧
    (getResource (apply_action initialState "Bob" ⟨.improve_food, some "world", none⟩
        ["Alice", "Bob"]).2 (yield_resource .improve_food) =
      getResource initialState (yield_resource .improve_food) +
        base_output_of .improve_food) := by
  obtain ⟨hsupport, hfirst, hsecond⟩ := c2_support_modifier_is_one_shot_output_boost
  refine ⟨(hsupport initialState "Alice" "Bob" ["Alice", "Bob"] (by decide) (by decide)).2,
    ?_, ?_, ?_⟩
  · exact (hfirst
      { initialState with cost_modifiers := fun k => if k = "Bob" then some (3/2) else none }
      "Bob" ["Alice", "Bob"] .improve_infrastructure "treasury" 4 (by decide) rfl rfl
      (by decide) (by decide) (by decide) (by decide) (by decide) (by decide)).2.1
  · exact (hfirst
      { initialState with cost_modifiers := fun k => if k = "Bob" then some (3/2) else none }
      "Bob" ["Alice", "Bob"] .improve_infrastructure "treasury" 4 (by decide) rfl rfl
      (by decide) (by decide) (by decide) (by decide) (by decide) (by decide)).2.2.2
  · exact (hsecond initialState "Bob" ["Alice", "Bob"] .improve_food "energy" 3
      (by decide) rfl rfl (by decide) (by decide) (by decide) (by decide) (by decide)
      (by decide)).2.2

/-- A relationship (src/social/relationship_engine.py): integer trust and
resentment plus a history log.  The pydantic model bounds both scalars by
ge=-100, le=100, matching the clamp in `update_relationship`. -/
structure Relationship where
  trust : Int
  resentment : Int
  history : List String
  deriving DecidableEq, Repr

/-- The default `Relationship()` (trust 0, resentment 0, empty history). -/
def defaultRelationship : Relationship := { trust := 0, resentment := 0, history := [] }

/-- The clamp used by `update_relationship`: `max(-100, min(100, x))`. -/
def clamp100 (x : Int) : Int := max (-100) (min 100 x)

/-- RELATIONSHIP_DELTAS: action kind ↦ (trust delta, resentment delta), in
source order. -/
def RELATIONSHIP_DELTAS : List (String × Int × Int) :=
  [("support_agent", 10, -5),
   ("oppose_agent", -10, 10),
   ("negotiate", 5, 0),
   ("request_help_accepted", 10, 0),
   ("request_help_rejected", -5, 5),
   ("trade_successful", 7, -3),
   ("sabotage", -25, 20),
   ("send_message_neutral", 1, 0),
   ("send_message_friendly", 3, -1),
   ("send_message_hostile", -3, 3),
   ("form_alliance", 15, -5),
   ("denounce_agent", -15, 15),
   ("offer_concession", 8, -5),
   ("demand_concession", -5, 8),
   ("accuse_agent", -10, 10),
   ("offer_protection", 12, -2),
   ("spread_rumor", -8, 8),
   ("propose_policy", 2, 0)]

/-- Dictionary lookup in RELATIONSHIP_DELTAS. -/
def lookupDelta (k : String) : Option (Int × Int) :=
  (RELATIONSHIP_DELTAS.find? (fun entry => entry.1 = k)).map (fun entry => entry.2)

/-- update_relationship: unknown action kinds are a no-op; otherwise add the
deltas and clamp each scalar to [-100, 100]; a truthy (non-None, nonempty)
description is appended to the history, popping the oldest entry once the
length exceeds 10. -/
def update_relationship (r : Relationship) (action_type : String)
    (description : Option String) : Relationship :=
  match lookupDelta action_type with
  | none => r
  | some (dt, dr) =>
      let r := { r with trust := clamp100 (r.trust + dt),
                        resentment := clamp100 (r.resentment + dr) }
      match description with
      | none => r
      | some d =>
          if d = "" then r
          else
            let h := r.history ++ [d]
            { r with history := if h.length > 10 then h.drop 1 else h }

/-- apply_message_effects: maps the tone to a send_message delta entry with
"send_message_neutral" as the default for any unrecognized tone, then runs
`update_relationship` with a history description.  (The description drops the
quote characters Python puts around the text; no property reads it.) -/
def apply_message_effects (r : Relationship) (tone : String) (text : Option String) :
    Relationship :=
  let action_type :=
    if tone = "friendly" then "send_message_friendly"
    else if tone = "hostile" then "send_message_hostile"
    else if tone = "neutral" then "send_message_neutral"
    else "send_message_neutral"
  let description :=
    match text with
    | some t =>
        if t = "" then "Received " ++ tone ++ " message"
        else "Received " ++ tone ++ " message: " ++ t
    | none => "Received " ++ tone ++ " message"
  update_relationship r action_type (some description)

/-- One relationship-mutating event, for stating properties over arbitrary
sequences of updates: an observed action (update_relationship) or a received
message (apply_message_effects). -/
inductive RelEvent where
  | act (action_type : String) (description : Option String)
  | msg (tone : String) (text : Option String)
  deriving Repr

/-- Fold a sequence of relationship events over a starting relationship. -/
def applyRelEvents (r : Relationship) (es : List RelEvent) : Relationship :=
  es.foldl
    (fun r e =>
      match e with
      | .act k d => update_relationship r k d
      | .msg t x => apply_message_effects r t x) r

/-- The social state of an LLMAgent that `receive_message` touches
(src/agents/llm_agent.py): the per-sender relationship dict and the pending
message display list. -/
structure AgentSocial where
  relationships : String → Option Relationship
  messages_received : List String

/-- LLMAgent.receive_message: store a display line, create a default
relationship for an unknown sender, then update it with
`apply_message_effects(relationship, message.content)` — the raw content is
passed in the tone position and the text argument is left None. -/
def receive_message (ag : AgentSocial) (m : Message) : AgentSocial :=
  let stored := (ag.relationships m.sender).getD defaultRelationship
  { messages_received :=
      ag.messages_received ++ ["From " ++ m.sender ++ ": \"" ++ m.content ++ "\""],
    relationships := fun k =>
      if k = m.sender then some (apply_message_effects stored m.content none)
      else ag.relationships k }

/-- An emotions dictionary (src/social/emotion_engine.py): string-keyed partial
map of exact scalar values. -/
abbrev EMap := String → Option ℚ

/-- Dictionary `get(key, 0.0)` on an emotions map. -/
def eget (e : EMap) (k : String) : ℚ := (e k).getD 0

def MIN_EMOTION : ℚ := -50

def MAX_EMOTION : ℚ := 50

/-- normalize_emotion: clamp between MIN_EMOTION and MAX_EMOTION. -/
def normalize_emotion (v : ℚ) : ℚ := max MIN_EMOTION (min MAX_EMOTION v)

/-- get_default_emotions: the six named scalars, all zero. -/
def get_default_emotions : EMap := fun k =>
  if k ∈ ["trust", "resentment", "admiration", "fear", "ambition", "insecurity"]
  then some 0 else none

/-- update_emotions: per-action deltas on (trust, resentment, admiration,
fear), most applied only `if is_target` with the `consume_resource` exception;
the four updated scalars are written back through `normalize_emotion`;
every other key (ambition, insecurity included) is copied unchanged. -/
def update_emotions (e : EMap) (action_type : String) (is_target : Bool) : EMap :=
  let d : ℚ × ℚ × ℚ × ℚ :=
    if action_type = "support_agent" then
      (if is_target then (5, -2, 1, 0) else (0, 0, 0, 0))
    else if action_type = "oppose_agent" then
      (if is_target then (-5, 5, 0, 1) else (0, 0, 0, 0))
    else if action_type = "sabotage" then
      (if is_target then (-10, 15, 0, 5) else (0, 0, 0, 0))
    else if action_type = "negotiate" then
      (if is_target then (2, 0, 1, 0) else (0, 0, 0, 0))
    else if action_type = "consume_resource" then (0, 1, 0, 0)
    else if action_type = "denounce_agent" then
      (if is_target then (-5, 8, 0, 0) else (0, 0, 0, 0))
    else if action_type = "form_alliance" then
      (if is_target then (10, 0, 2, 0) else (0, 0, 0, 0))
    else if action_type = "offer_concession" then
      (if is_target then (5, -5, 0, 0) else (0, 0, 0, 0))
    else if action_type = "demand_concession" then
      (if is_target then (0, 5, 0, 2) else (0, 0, 0, 0))
    else if action_type = "accuse_agent" then
      (if is_target then (-3, 6, 0, 0) else (0, 0, 0, 0))
    else if action_type = "offer_protection" then
      (if is_target then (8, 0, 3, 0) else (0, 0, 0, 0))
    else if action_type = "spread_rumor" then
      (if is_target then (-4, 4, 0, 0) else (0, 0, 0, 0))
    else (0, 0, 0, 0)
  fun k =>
    if k = "trust" then some (normalize_emotion (eget e "trust" + d.1))
    else if k = "resentment" then some (normalize_emotion (eget e "resentment" + d.2.1))
    else if k = "admiration" then some (normalize_emotion (eget e "admiration" + d.2.2.1))
    else if k = "fear" then some (normalize_emotion (eget e "fear" + d.2.2.2))
    else e k

/-- The four interpersonal goal slots (src/social/interpersonal_goals.py). -/
structure Goals where
  ally_with : Option String
  undermine : Option String
  gain_influence_over : Option String
  seek_approval_from : Option String
  deriving DecidableEq, Repr

/-- get_default_goals: all four slots empty. -/
def get_default_goals : Goals :=
  { ally_with := none, undermine := none, gain_influence_over := none,
    seek_approval_from := none }

/-- The Ally Rule block of update_goals: trust > 15 sets the slot to the
target; otherwise a slot naming this target is cleared when trust ≤ 10. -/
def ally_rule (g : Goals) (trust : ℚ) (target_name : String) : Goals :=
  if trust > 15 then { g with ally_with := some target_name }
  else if g.ally_with = some target_name ∧ trust ≤ 10 then { g with ally_with := none }
  else g

/-- The Undermine Rule block of update_goals. -/
def undermine_rule (g : Goals) (resentment : ℚ) (target_name : String) : Goals :=
  if resentment > 15 then { g with undermine := some target_name }
  else if g.undermine = some target_name ∧ resentment ≤ 10 then
    { g with undermine := none }
  else g

/-- The Seek Approval Rule block of update_goals. -/
def approval_rule (g : Goals) (admiration : ℚ) (target_name : String) : Goals :=
  if admiration > 10 then { g with seek_approval_from := some target_name }
  else if g.seek_approval_from = some target_name ∧ admiration ≤ 5 then
    { g with seek_approval_from := none }
  else g

/-- The Gain Influence Rule block of update_goals (driven by the actor's own
ambition and world stability; the nested clear-condition check is flattened to
the equivalent conjunction). -/
def influence_rule (g : Goals) (ambition : ℚ) (world_stability : Int)
    (target_name : String) : Goals :=
  if ambition > 10 ∧ world_stability < 50 then
    { g with gain_influence_over := some target_name }
  else if g.gain_influence_over = some target_name ∧
      (ambition ≤ 10 ∨ world_stability ≥ 50) then
    { g with gain_influence_over := none }
  else g

/-- update_goals: the four rule blocks applied in source order on a copy of the
current goals, reading trust/resentment/admiration via `dict.get(_, 0.0)`. -/
def update_goals (current_goals : Goals) (emotions : EMap) (target_name : String)
    (world_stability : Int) (ambition : ℚ) : Goals :=
  let trust := eget emotions "trust"
  let resentment := eget emotions "resentment"
  let admiration := eget emotions "admiration"
  influence_rule
    (approval_rule
      (undermine_rule (ally_rule current_goals trust target_name) resentment target_name)
      admiration target_name)
    ambition world_stability target_name

/-- A bias dictionary (src/social/decision_engine.py): action-kind string to
exact weight. -/
abbrev SMap := String → Option ℚ

/-- The social action kinds given the flat social baseline, in source order. -/
def social_actions : List String :=
  ["support_agent", "oppose_agent", "negotiate", "request_help", "trade", "sabotage",
   "form_alliance", "denounce_agent", "offer_concession", "demand_concession",
   "accuse_agent", "offer_protection", "spread_rumor", "propose_policy",
   "send_message"]

/-- The world action kinds given the lower world baseline. -/
def world_actions : List String :=
  ["improve_resource", "consume_resource", "boost_morale", "strengthen_infrastructure"]

/-- get_persona_biases: fixed additive modifiers keyed by archetype string. -/
def get_persona_biases (persona_archetype : String) : List (String × ℚ) :=
  if persona_archetype = "Guardian" then
    [("strengthen_infrastructure", 1/2), ("support_agent", 3/10),
     ("form_alliance", 3/10), ("propose_policy", -(2/10))]
  else if persona_archetype = "Visionary" then
    [("propose_policy", 1/2), ("negotiate", 3/10), ("improve_resource", 3/10)]
  else if persona_archetype = "Realist" then
    [("consume_resource", 2/10), ("trade", 4/10), ("oppose_agent", 2/10)]
  else if persona_archetype = "Idealist" then
    [("boost_morale", 1/2), ("support_agent", 4/10), ("offer_concession", 3/10)]
  else if persona_archetype = "Agitator" then
    [("oppose_agent", 1/2), ("denounce_agent", 1/2), ("spread_rumor", 1/2),
     ("sabotage", 3/10)]
  else []

def insecurity_factor (emotions : EMap) : ℚ := eget emotions "insecurity"

/-- get_emotional_bias: the fixed linear combinations of the emotion scalars,
keyed by action kind, in source (dict insertion) order. -/
def get_emotional_bias (emotions : EMap) : List (String × ℚ) :=
  [("support_agent", (eget emotions "trust" + eget emotions "admiration") / 100),
   ("form_alliance", (eget emotions "trust" + eget emotions "admiration") / 80),
   ("offer_protection", (eget emotions "trust" + eget emotions "admiration") / 90),
   ("offer_concession", (eget emotions "trust" - eget emotions "resentment") / 100),
   ("negotiate",
     (eget emotions "trust" + eget emotions "admiration" - eget emotions "fear") / 100),
   ("oppose_agent", (eget emotions "resentment" - eget emotions "trust") / 100),
   ("sabotage", (eget emotions "resentment" - eget emotions "trust") / 80),
   ("denounce_agent", (eget emotions "resentment" - eget emotions "trust") / 90),
   ("accuse_agent", (eget emotions "resentment" - eget emotions "trust") / 90),
   ("demand_concession", (eget emotions "resentment" + eget emotions "fear") / 100),
   ("spread_rumor", (eget emotions "resentment" + insecurity_factor emotions) / 100)]

/-- The guarded `if action in biases: biases[action] += mod` loop body. -/
def addIfMem (b : SMap) (kv : String × ℚ) : SMap :=
  if (b kv.1).isSome then
    fun x => if x = kv.1 then (b x).map (fun v => v + kv.2) else b x
  else b

/-- The unguarded `biases[action] += delta` (only ever executed on keys the
map holds; on an absent key Python would raise where this map stays empty). -/
def addAt (b : SMap) (k : String) (d : ℚ) : SMap :=
  fun x => if x = k then (b x).map (fun v => v + d) else b x

/-- Python truthiness of an optional goal slot (`if goals.get(slot):`). -/
def isTruthy : Option String → Bool
  | none => false
  | some s => s ≠ ""

/-- compute_action_biases.  The Python signature also receives the full
agent_state (read only for `persona.archetype`), world_state (read only for
`crisis_level`) and the relationships dict (never read); those are passed here
as the data actually consumed.  Order of composition follows the source: base
weights (social 1.0, world 0.25), crisis override (+1.0 to world actions when
crisis_level > 60), archetype modifiers, emotional bias, then goal bonuses of
+0.5. -/
def compute_action_biases (persona_archetype : String) (crisis_level : Int)
    (emotions : EMap) (goals : Goals) : SMap :=
  let biases : SMap := fun a =>
    if a ∈ social_actions then some 1
    else if a ∈ world_actions then some (1/4)
    else none
  let biases : SMap :=
    if crisis_level > 60 then
      fun a => if a ∈ world_actions then (biases a).map (fun v => v + 1) else biases a
    else biases
  let biases := (get_persona_biases persona_archetype).foldl addIfMem biases
  let biases := (get_emotional_bias emotions).foldl addIfMem biases
  let biases :=
    if isTruthy goals.ally_with then
      addAt (addAt (addAt biases "form_alliance" (1/2)) "support_agent" (1/2))
        "offer_protection" (1/2)
    else biases
  let biases :=
    if isTruthy goals.undermine then
      addAt (addAt (addAt (addAt biases "denounce_agent" (1/2)) "sabotage" (1/2))
        "spread_rumor" (1/2)) "oppose_agent" (1/2)
    else biases
  let biases :=
    if isTruthy goals.seek_approval_from then
      addAt (addAt biases "offer_concession" (1/2)) "support_agent" (1/2)
    else biases
  let biases :=
    if isTruthy goals.gain_influence_over then
      addAt (addAt biases "demand_concession" (1/2)) "accuse_agent" (1/2)
    else biases
  biases

/-- apply_repetition_penalty: empty history is a no-op; otherwise subtract 0.75
from the last action's weight if it is a key, and a further 2.0 from
propose_policy when the last action was propose_policy. -/
def apply_repetition_penalty (biases : SMap) (recent_actions : List String) : SMap :=
  match recent_actions.getLast? with
  | none => biases
  | some last_action =>
      let b1 :=
        if (biases last_action).isSome then
          fun x =>
            if x = last_action then (biases x).map (fun v => v - 3/4) else biases x
        else biases
      if last_action = "propose_policy" then
        fun x => if x = "propose_policy" then (b1 x).map (fun v => v - 2) else b1 x
      else b1

/-- Both relationship scalars within the code's clamp range [-100, 100]. -/
def rel_in_bounds (r : Relationship) : Prop :=
  -100 ≤ r.trust ∧ r.trust ≤ 100 ∧ -100 ≤ r.resentment ∧ r.resentment ≤ 100

theorem update_relationship_bounds (r : Relationship) (k : String) (d : Option String)
    (h : rel_in_bounds r) : rel_in_bounds (update_relationship r k d) := by
  unfold update_relationship
  cases hl : lookupDelta k with
  | none => exact h
  | some p =>
      obtain ⟨dt, dr⟩ := p
      rcases d with _ | dsc
      · refine ⟨?_, ?_, ?_, ?_⟩ <;> simp [clamp100]
      · dsimp only
        split_ifs <;> (refine ⟨?_, ?_, ?_, ?_⟩ <;> simp [clamp100])

theorem apply_message_effects_bounds (r : Relationship) (tone : String)
    (text : Option String) (h : rel_in_bounds r) :
    rel_in_bounds (apply_message_effects r tone text) := by
  unfold apply_message_effects
  exact update_relationship_bounds _ _ _ h

theorem applyRelEvents_bounds (es : List RelEvent) (r : Relationship)
    (h : rel_in_bounds r) : rel_in_bounds (applyRelEvents r es) := by
  induction es generalizing r with
  | nil => exact h
  | cons e es ih =>
      cases e with
      | act k d => exact ih _ (update_relationship_bounds r k d h)
      | msg t x => exact ih _ (apply_message_effects_bounds r t x h)

theorem normalize_emotion_bounds (v : ℚ) :
    -50 ≤ normalize_emotion v ∧ normalize_emotion v ≤ 50 := by
  unfold normalize_emotion MIN_EMOTION MAX_EMOTION
  constructor
  · exact le_max_left _ _
  · exact max_le (by norm_num) (min_le_left _ _)

/-- Six consecutive observed support_agent actions (each +10 trust). -/
def sixSupports : List RelEvent := List.replicate 6 (RelEvent.act "support_agent" none)

/-- C4 counterexample: six support_agent updates from the default relationship
drive trust to 60, outside [-50, 50], so relationship scalars are not always
within [-50, 50] — `update_relationship` clamps at [-100, 100]. -/
theorem c4_counterexample_trust_reaches_60 :
    (applyRelEvents defaultRelationship sixSupports).trust = 60 ∧
    ¬ (applyRelEvents defaultRelationship sixSupports).trust ≤ 50 := by
  constructor <;> decide

/-- C4 (amended): along every sequence of action-based and message-based
updates from the default relationship, trust and resentment stay within the
code's clamp range [-100, 100]; and each of the four emotion scalars that
`update_emotions` writes (trust, resentment, admiration, fear) is always
within [-50, 50]. -/
theorem c4_relationship_and_emotion_scalar_bounds :
    (∀ es : List RelEvent, rel_in_bounds (applyRelEvents defaultRelationship es)) ∧
    (∀ (e : EMap) (action_type : String) (is_target : Bool),
      (-50 ≤ eget (update_emotions e action_type is_target) "trust" ∧
        eget (update_emotions e action_type is_target) "trust" ≤ 50) ∧
      (-50 ≤ eget (update_emotions e action_type is_target) "resentment" ∧
        eget (update_emotions e action_type is_target) "resentment" ≤ 50) ∧
      (-50 ≤ eget (update_emotions e action_type is_target) "admiration" ∧
        eget (update_emotions e action_type is_target) "admiration" ≤ 50) ∧
      (-50 ≤ eget (update_emotions e action_type is_target) "fear" ∧
        eget (update_emotions e action_type is_target) "fear" ≤ 50)) := by
  constructor
  · intro es
    exact applyRelEvents_bounds es defaultRelationship (by constructor <;> decide)
  · intro e action_type is_target
    refine ⟨?_, ?_, ?_, ?_⟩ <;>
      (simp only [update_emotions, eget]; norm_num) <;>
      exact normalize_emotion_bounds _

theorem undermine_rule_ally_with (g : Goals) (r : ℚ) (t : String) :
    (undermine_rule g r t).ally_with = g.ally_with := by
  unfold undermine_rule
  split_ifs <;> rfl

theorem approval_rule_ally_with (g : Goals) (a : ℚ) (t : String) :
    (approval_rule g a t).ally_with = g.ally_with := by
  unfold approval_rule
  split_ifs <;> rfl

theorem influence_rule_ally_with (g : Goals) (amb : ℚ) (ws : Int) (t : String) :
    (influence_rule g amb ws t).ally_with = g.ally_with := by
  unfold influence_rule
  split_ifs <;> rfl

theorem update_goals_ally_with (g : Goals) (e : EMap) (t : String) (ws : Int)
    (amb : ℚ) :
    (update_goals g e t ws amb).ally_with = (ally_rule g (eget e "trust") t).ally_with := by
  unfold update_goals
  rw [influence_rule_ally_with, approval_rule_ally_with, undermine_rule_ally_with]

/-- C6: the ally_with hysteresis of update_goals — trust above 15 sets the
slot to the evaluated counterpart; a slot holding that counterpart survives
any trust above 10; it is cleared at trust ≤ 10; and when the slot names a
different counterpart, a non-setting evaluation (trust ≤ 15) leaves it
untouched. -/
theorem c6_ally_with_hysteresis (g : Goals) (e : EMap) (t : String) (ws : Int)
    (amb : ℚ) :
    (15 < eget e "trust" → (update_goals g e t ws amb).ally_with = some t) ∧
    (g.ally_with = some t → 10 < eget e "trust" →
      (update_goals g e t ws amb).ally_with = some t) ∧
    (g.ally_with = some t → eget e "trust" ≤ 10 →
      (update_goals g e t ws amb).ally_with = none) ∧
    (∀ u, g.ally_with = some u → u ≠ t → eget e "trust" ≤ 15 →
      (update_goals g e t ws amb).ally_with = some u) := by
  refine ⟨?_, ?_, ?_, ?_⟩
  · intro h
    rw [update_goals_ally_with]
    unfold ally_rule
    rw [if_pos h]
  · intro ha h
    rw [update_goals_ally_with]
    unfold ally_rule
    split_ifs with h1 h2
    · rfl
    · linarith [h2.2]
    · exact ha
  · intro ha h
    rw [update_goals_ally_with]
    unfold ally_rule
    split_ifs with h1 h2
    · linarith
    · rfl
    · exact absurd ⟨ha, h⟩ h2
  · intro u ha hne h
    rw [update_goals_ally_with]
    unfold ally_rule
    split_ifs with h1 h2
    · linarith
    · rw [ha] at h2
      exact absurd (Option.some.inj h2.1) hne
    · exact ha

/-- Witness for C6: trust 16 toward Bob sets ally_with; with ally_with = Bob,
trust 11 keeps it; trust 10 clears it; with ally_with = Carol, evaluating Bob
at trust 2 leaves Carol in place. -/
theorem c6_ally_with_hysteresis_witness :
    (update_goals get_default_goals (fun k => if k = "trust" then some 16 else none)
        "Bob" 50 0).ally_with = some "Bob" ∧
    (update_goals { get_default_goals with ally_with := some "Bob" }
        (fun k => if k = "trust" then some 11 else none) "Bob" 50 0).ally_with =
      some "Bob" ∧
    (update_goals { get_default_goals with ally_with := some "Bob" }
        (fun k => if k = "trust" then some 10 else none) "Bob" 50 0).ally_with =
      none ∧
    (update_goals { get_default_goals with ally_with := some "Carol" }
        (fun k => if k = "trust" then some 2 else none) "Bob" 50 0).ally_with =
      some "Carol" :=
  ⟨(c6_ally_with_hysteresis get_default_goals
      (fun k => if k = "trust" then some 16 else none) "Bob" 50 0).1 (by decide),
   (c6_ally_with_hysteresis { get_default_goals with ally_with := some "Bob" }
      (fun k => if k = "trust" then some 11 else none) "Bob" 50 0).2.1 rfl (by decide),
   (c6_ally_with_hysteresis { get_default_goals with ally_with := some "Bob" }
      (fun k => if k = "trust" then some 10 else none) "Bob" 50 0).2.2.1 rfl (by decide),
   (c6_ally_with_hysteresis { get_default_goals with ally_with := some "Carol" }
      (fun k => if k = "trust" then some 2 else none) "Bob" 50 0).2.2.2 "Carol" rfl
      (by decide) (by decide)⟩

/-- C10: receive_message updates the sender relationship by feeding the raw
message content into the tone position of apply_message_effects: content
exactly "friendly" applies the friendly delta (+3 trust, -1 resentment),
exactly "hostile" the hostile delta (-3, +3), and every other content — every
ordinary free-text message — the neutral delta (+1 trust, +0 resentment); the
external tone classifier plays no part. -/
theorem c10_receive_message_tone_is_raw_content (ag : AgentSocial) (m : Message) :
    ((receive_message ag m).relationships m.sender =
      some (apply_message_effects
        ((ag.relationships m.sender).getD defaultRelationship) m.content none)) ∧
    (m.content = "friendly" →
      ((receive_message ag m).relationships m.sender).map Relationship.trust =
        some (clamp100
          (((ag.relationships m.sender).getD defaultRelationship).trust + 3)) ∧
      ((receive_message ag m).relationships m.sender).map Relationship.resentment =
        some (clamp100
          (((ag.relationships m.sender).getD defaultRelationship).resentment + -1))) ∧
    (m.content = "hostile" →
      ((receive_message ag m).relationships m.sender).map Relationship.trust =
        some (clamp100
          (((ag.relationships m.sender).getD defaultRelationship).trust + -3)) ∧
      ((receive_message ag m).relationships m.sender).map Relationship.resentment =
        some (clamp100
          (((ag.relationships m.sender).getD defaultRelationship).resentment + 3))) ∧
    (m.content ≠ "friendly" → m.content ≠ "hostile" →
      ((receive_message ag m).relationships m.sender).map Relationship.trust =
        some (clamp100
          (((ag.relationships m.sender).getD defaultRelationship).trust + 1)) ∧
      ((receive_message ag m).relationships m.sender).map Relationship.resentment =
        some (clamp100
          (((ag.relationships m.sender).getD defaultRelationship).resentment + 0))) := by
  have hrel : (receive_message ag m).relationships m.sender =
      some (apply_message_effects
        ((ag.relationships m.sender).getD defaultRelationship) m.content none) := by
    unfold receive_message
    simp
  refine ⟨hrel, ?_, ?_, ?_⟩
  · intro h
    rw [hrel, h]
    constructor <;>
      simp [apply_message_effects, update_relationship, lookupDelta,
        RELATIONSHIP_DELTAS, apply_ite]
  · intro h
    rw [hrel, h]
    constructor <;>
      simp [apply_message_effects, update_relationship, lookupDelta,
        RELATIONSHIP_DELTAS, apply_ite]
  · intro h1 h2
    rw [hrel]
    unfold apply_message_effects
    rw [if_neg h1, if_neg h2, ite_self]
    unfold update_relationship
    dsimp only
    rw [show lookupDelta "send_message_neutral" = some (1, 0) from by decide]
    dsimp only
    constructor <;> (split_ifs <;> simp)

/-- Witness for C10: a first message from Bob with free text applies the
neutral +1 trust delta; content "friendly" applies +3; content "hostile"
applies -3 trust and +3 resentment. -/
theorem c10_receive_message_tone_is_raw_content_witness :
    (((receive_message ⟨fun _ => none, []⟩
        ⟨"Bob", "Alice", "shall we form an alliance", 0⟩).relationships "Bob").map
        Relationship.trust = some (clamp100 (defaultRelationship.trust + 1))) ∧
    (((receive_message ⟨fun _ => none, []⟩
        ⟨"Bob", "Alice", "friendly", 0⟩).relationships "Bob").map
        Relationship.trust = some (clamp100 (defaultRelationship.trust + 3))) ∧
    (((receive_message ⟨fun _ => none, []⟩
        ⟨"Bob", "Alice", "hostile", 0⟩).relationships "Bob").map
        Relationship.resentment = some (clamp100 (defaultRelationship.resentment + 3))) :=
  ⟨((c10_receive_message_tone_is_raw_content ⟨fun _ => none, []⟩
      ⟨"Bob", "Alice", "shall we form an alliance", 0⟩).2.2.2 (by decide) (by decide)).1,
   ((c10_receive_message_tone_is_raw_content ⟨fun _ => none, []⟩
      ⟨"Bob", "Alice", "friendly", 0⟩).2.1 rfl).1,
   ((c10_receive_message_tone_is_raw_content ⟨fun _ => none, []⟩
      ⟨"Bob", "Alice", "hostile", 0⟩).2.2.1 rfl).2⟩

theorem getLast?_append_triple (r0 : List String) (a : String) :
    (r0 ++ [a, a, a]).getLast? = some a := by
  have h : r0 ++ [a, a, a] = (r0 ++ [a, a]) ++ [a] := by simp
  rw [h]
  exact List.getLast?_concat _

theorem apply_repetition_penalty_spec (b : SMap) (r0 : List String) (a : String) :
    (∀ x, x ≠ a →
      apply_repetition_penalty b (r0 ++ [a, a, a]) x = b x) ∧
    (a ≠ "propose_policy" →
      apply_repetition_penalty b (r0 ++ [a, a, a]) a =
        (b a).map (fun v => v - 3/4)) ∧
    (a = "propose_policy" →
      apply_repetition_penalty b (r0 ++ [a, a, a]) a =
        (b a).map (fun v => v - 3/4 - 2)) := by
  unfold apply_repetition_penalty
  rw [getLast?_append_triple]
  dsimp only
  refine ⟨?_, ?_, ?_⟩
  · intro x hxa
    rcases eq_or_ne a "propose_policy" with hp | hp
    · subst hp
      cases hba : b "propose_policy" with
      | none => simp [hba, hxa]
      | some v => simp [hba, hxa]
    · cases hba : b a with
      | none => simp [hba, hxa, hp]
      | some v => simp [hba, hxa, hp]
  · intro hp
    cases hba : b a with
    | none => simp [hba, hp]
    | some v => simp [hba, hp]
  · intro hp
    subst hp
    cases hba : b "propose_policy" with
    | none => simp [hba]
    | some v => simp [hba]

/-- C9 (amended): on a bias map produced by compute_action_biases and a
history ending in three identical actions, apply_repetition_penalty subtracts
exactly 0.75 from that action's weight (0.75 + 2.0 when it is propose_policy)
and leaves every competing action's weight unchanged — a flat subtraction, not
a suppression below all untouched competitors. -/
theorem c9_flat_repetition_penalty (arch : String) (crisis : Int) (e : EMap)
    (g : Goals) (r0 : List String) (a : String) :
    (∀ x, x ≠ a →
      apply_repetition_penalty (compute_action_biases arch crisis e g)
          (r0 ++ [a, a, a]) x =
        compute_action_biases arch crisis e g x) ∧
    (a ≠ "propose_policy" →
      apply_repetition_penalty (compute_action_biases arch crisis e g)
          (r0 ++ [a, a, a]) a =
        (compute_action_biases arch crisis e g a).map (fun v => v - 3/4)) ∧
    (a = "propose_policy" →
      apply_repetition_penalty (compute_action_biases arch crisis e g)
          (r0 ++ [a, a, a]) a =
        (compute_action_biases arch crisis e g a).map (fun v => v - 3/4 - 2)) :=
  apply_repetition_penalty_spec (compute_action_biases arch crisis e g) r0 a

/-- Witness for C9 (amended): with a neutral archetype, no crisis, default
emotions and goals, after three consecutive "negotiate" actions the penalty
leaves "improve_resource" untouched and lowers "negotiate" by exactly 0.75. -/
theorem c9_flat_repetition_penalty_witness :
    (apply_repetition_penalty
        (compute_action_biases "Archivist" 0 get_default_emotions get_default_goals)
        ([] ++ ["negotiate", "negotiate", "negotiate"]) "improve_resource" =
      compute_action_biases "Archivist" 0 get_default_emotions get_default_goals
        "improve_resource") ∧
    (apply_repetition_penalty
        (compute_action_biases "Archivist" 0 get_default_emotions get_default_goals)
        ([] ++ ["negotiate", "negotiate", "negotiate"]) "negotiate" =
      (compute_action_biases "Archivist" 0 get_default_emotions get_default_goals
        "negotiate").map (fun v => v - 3/4)) :=
  ⟨(c9_flat_repetition_penalty "Archivist" 0 get_default_emotions get_default_goals
      [] "negotiate").1 "improve_resource" (by decide),
   (c9_flat_repetition_penalty "Archivist" 0 get_default_emotions get_default_goals
      [] "negotiate").2.1 (by decide)⟩

/-- C9 counterexample: with a neutral archetype, crisis 0, default emotions and
goals, the bias map gives the social action "negotiate" weight 1.0 and the
world action "improve_resource" weight 0.25; after three consecutive
"negotiate" actions the penalized weight is 0.25, which ties — is not strictly
below — the untouched competing weight 0.25. -/
theorem c9_counterexample_penalized_weight_ties_competitor :
    compute_action_biases "Archivist" 0 get_default_emotions get_default_goals
        "negotiate" = some 1 ∧
    compute_action_biases "Archivist" 0 get_default_emotions get_default_goals
        "improve_resource" = some (1/4) ∧
    apply_repetition_penalty
        (compute_action_biases "Archivist" 0 get_default_emotions get_default_goals)
        ["negotiate", "negotiate", "negotiate"] "negotiate" = some (1/4) ∧
    apply_repetition_penalty
        (compute_action_biases "Archivist" 0 get_default_emotions get_default_goals)
        ["negotiate", "negotiate", "negotiate"] "improve_resource" = some (1/4) ∧
    ¬ ((1 : ℚ)/4 < 1/4) := by
  have hper : get_persona_biases "Archivist" = [] := rfl
  have hneg : compute_action_biases "Archivist" 0 get_default_emotions
      get_default_goals "negotiate" = some 1 := by
    norm_num [compute_action_biases, social_actions, world_actions, addIfMem, addAt,
      hper, get_emotional_bias, insecurity_factor, eget,
      get_default_emotions, get_default_goals, isTruthy]
  have himp : compute_action_biases "Archivist" 0 get_default_emotions
      get_default_goals "improve_resource" = some (1/4) := by
    norm_num [compute_action_biases, social_actions, world_actions, addIfMem, addAt,
      hper, get_emotional_bias, insecurity_factor, eget,
      get_default_emotions, get_default_goals, isTruthy]
    decide
  obtain ⟨huntouched, hpen, _⟩ := apply_repetition_penalty_spec
    (compute_action_biases "Archivist" 0 get_default_emotions get_default_goals)
    [] "negotiate"
  refine ⟨hneg, himp, ?_, ?_, by norm_num⟩
  · have := hpen (by decide)
    rw [hneg] at this
    simp only [List.nil_append] at this
    rw [this]
    norm_num
  · have := huntouched "improve_resource" (by decide)
    simp only [List.nil_append] at this
    rw [this, himp]

end CF
